import Mathlib

/-!
Shallow embedding of the reconciliation helpers of the
terraform-provider-hetznerrobot repository (Go), together with proofs of the
specification claims about them.

Conventions of the embedding:
* Go slices become `List`, Go `int` becomes `Int`, Go strings become `String`.
* Fallible Go functions (returning `(T, error)`) become `Except String T`.
* The network is modelled as an explicit fetch trace `Nat → Except String α`
  (the result of the i-th call) or as a function from the request id.
* Go map iteration order is unspecified; iterating the keys of a map built
  from a list is modelled as iterating the list deduplicated in
  first-occurrence order (`List.dedup`).
* `time.Sleep` has no observable effect; the wait loops additionally report
  how many fetches and sleeps they performed so that claims about the number
  of polls are statable.
-/

namespace HetznerRobot

/-- `VSwitchServer` from internal/client/vswitch.go. -/
structure VSwitchServer where
  serverNumber : Int
  serverIP : String
  serverIPv6Net : String
  status : String
  deriving DecidableEq

/-- `VSwitchSubnet` from internal/client/vswitch.go. -/
structure VSwitchSubnet where
  ip : String
  mask : Int
  gateway : String
  deriving DecidableEq

/-- `VSwitchCloudNet` from internal/client/vswitch.go. -/
structure VSwitchCloudNet where
  id : Int
  ip : String
  mask : Int
  gateway : String
  deriving DecidableEq

/-- `VSwitch` from internal/client/vswitch.go. -/
structure VSwitch where
  id : Int
  name : String
  vlan : Int
  cancelled : Bool
  servers : List VSwitchServer
  subnets : List VSwitchSubnet
  cloudNets : List VSwitchCloudNet
  deriving DecidableEq

/-- `diffServers` from internal/vswitch/resource.go: both input lists are
loaded into boolean maps (so duplicates collapse) and the two map key sets
are scanned for ids missing on the other side.  Iteration over the keys of
`oldMap` (resp. `newMap`) is modelled as iterating `oldList.dedup`
(resp. `newList.dedup`); the claims proved below are insensitive to the
iteration order.  Returns `(toAdd, toRemove)`. -/
def diffServers (oldList newList : List Int) : List Int × List Int :=
  let toRemove := oldList.dedup.filter (fun id => !newList.contains id)
  let toAdd := newList.dedup.filter (fun id => !oldList.contains id)
  (toAdd, toRemove)

/-- `parseServerIDsToVSwitchServers` from internal/vswitch/resource.go: wraps
each id in a `VSwitchServer` whose other fields are Go zero values. -/
def parseServerIDsToVSwitchServers (serverIDs : List Int) : List VSwitchServer :=
  serverIDs.map (fun id => ⟨id, "", "", ""⟩)

/-- An attach/detach API call issued by `manageServers`, with its payload. -/
inductive VSwitchCall where
  | removeServers (servers : List VSwitchServer)
  | addServers (servers : List VSwitchServer)
  deriving DecidableEq

/-- `manageServers` from internal/vswitch/resource_servers.go, modelled as the
trace of attach/detach API calls it issues on the happy path:
`RemoveVSwitchServers` with the diffed `toRemove` payload when that list is
nonempty, then `AddVSwitchServers` with the diffed `toAdd` payload when that
list is nonempty. -/
def manageServers (oldServers newServers : List Int) : List VSwitchCall :=
  let diffed := diffServers oldServers newServers
  let toAdd := diffed.1
  let toRemove := diffed.2
  (if toRemove.length > 0 then
    [VSwitchCall.removeServers (parseServerIDsToVSwitchServers toRemove)]
  else []) ++
  (if toAdd.length > 0 then
    [VSwitchCall.addServers (parseServerIDsToVSwitchServers toAdd)]
  else [])

/-- `isVSwitchReady` from internal/client/vswitch.go: scans the server list
and reports false as soon as a server has status `"processing"`. -/
def isVSwitchReady : List VSwitchServer → Bool
  | [] => true
  | server :: rest =>
    if server.status == "processing" then false else isVSwitchReady rest

/-- Outcome of a bounded-retry wait loop. -/
inductive WaitOutcome where
  | ok
  | fetchFailed (msg : String)
  | timedOut (msg : String)
  deriving DecidableEq

/-- Observable trace of a bounded-retry wait loop: its outcome together with
how many fetches it performed and how many times it slept. -/
structure WaitTrace where
  outcome : WaitOutcome
  fetches : Nat
  sleeps : Nat
  deriving DecidableEq

/-- Classification of the i-th poll of a retry loop: the fetch failed, or it
succeeded and the readiness check passed (`ready`) or did not (`notReady`). -/
inductive PollKind where
  | ready
  | notReady
  | failed (e : String)
  deriving DecidableEq

/-- Loop body of `WaitForVSwitchReady` from internal/client/vswitch.go.
`fetch i` is the result of the (i+1)-th `FetchVSwitchByID` call; the second
argument is the remaining iteration budget (Go: `for range maxRetries`).
Each iteration fetches, returns the wrapped fetch error on failure, returns
success when `isVSwitchReady` holds, and otherwise sleeps and retries. -/
def waitVSwitchLoop (fetch : Nat → Except String VSwitch) (id : String) :
    Nat → Nat → WaitTrace
  | _, 0 => ⟨.timedOut ("timeout waiting for vSwitch " ++ id ++ " to become ready"), 0, 0⟩
  | i, n + 1 =>
    match fetch i with
    | .error e => ⟨.fetchFailed ("error fetching VSwitch while waiting: " ++ e), 1, 0⟩
    | .ok vsw =>
      if isVSwitchReady vsw.servers then ⟨.ok, 1, 0⟩
      else
        let t := waitVSwitchLoop fetch id (i + 1) n
        ⟨t.outcome, t.fetches + 1, t.sleeps + 1⟩

/-- `WaitForVSwitchReady` from internal/client/vswitch.go (the `waitTime`
duration only feeds `time.Sleep` and is not part of the observable trace). -/
def WaitForVSwitchReady (fetch : Nat → Except String VSwitch) (id : String)
    (maxRetries : Nat) : WaitTrace :=
  waitVSwitchLoop fetch id 0 maxRetries

/-- Classification of the i-th `FetchVSwitchByID` result seen by the wait
loop. -/
def vswitchPoll (fetch : Nat → Except String VSwitch) (i : Nat) : PollKind :=
  match fetch i with
  | .error e => .failed e
  | .ok vsw => if isVSwitchReady vsw.servers then .ready else .notReady

/-- `FirewallRule` from internal/client/firewall.go. -/
structure FirewallRule where
  name : String
  srcIP : String
  srcPort : String
  dstIP : String
  dstPort : String
  protocol : String
  tcpFlags : String
  action : String
  deriving DecidableEq

/-- `FirewallRules` from internal/client/firewall.go. -/
structure FirewallRules where
  input : List FirewallRule
  deriving DecidableEq

/-- `Firewall` from internal/client/firewall.go. -/
structure Firewall where
  ip : String
  whitelistHetznerServices : Bool
  status : String
  rules : FirewallRules
  deriving DecidableEq

/-- `waitMaxRetries` from internal/client/client.go: the retry limit the
internal client passes to its wait loops. -/
def waitMaxRetries : Nat := 60

/-- Loop body of `waitForFirewallActive` from internal/client/firewall.go.
`get i` is the result of the (i+1)-th `GetFirewall` call; the second argument
is the remaining iteration budget.  Each iteration fetches, returns the
wrapped fetch error on failure, returns success when the firewall status is
`"active"`, and otherwise sleeps and retries.  The legacy copy in
client/firewall.go has the same loop with `maxRetries` as a parameter and a
slightly different timeout message. -/
def waitFirewallLoop (get : Nat → Except String Firewall) (ip : String) :
    Nat → Nat → WaitTrace
  | _, 0 => ⟨.timedOut ("timeout waiting for firewall to become active on ip: " ++ ip), 0, 0⟩
  | i, n + 1 =>
    match get i with
    | .error e => ⟨.fetchFailed ("error checking firewall status: " ++ e), 1, 0⟩
    | .ok firewall =>
      if firewall.status == "active" then ⟨.ok, 1, 0⟩
      else
        let t := waitFirewallLoop get ip (i + 1) n
        ⟨t.outcome, t.fetches + 1, t.sleeps + 1⟩

/-- `waitForFirewallActive` with the retry limit as a parameter (the internal
client fixes it to `waitMaxRetries`, the legacy client takes it as an
argument). -/
def waitForFirewallActive (get : Nat → Except String Firewall) (ip : String)
    (maxRetries : Nat) : WaitTrace :=
  waitFirewallLoop get ip 0 maxRetries

/-- Classification of the i-th `GetFirewall` result seen by the wait loop. -/
def firewallPoll (get : Nat → Except String Firewall) (i : Nat) : PollKind :=
  match get i with
  | .error e => .failed e
  | .ok firewall => if firewall.status == "active" then .ready else .notReady

/-- The list of worker errors collected by `runConcurrentTasks` in
internal/client/helpers.go (each worker is invoked exactly once per id; the
collection order is modelled as input order). -/
def collectedErrors {T : Type} (ids : List String)
    (worker : String → Except String T) : List String :=
  (ids.map worker).filterMap (fun r =>
    match r with
    | .error e => some e
    | .ok _ => none)

/-- The list of worker results collected by `runConcurrentTasks`. -/
def collectedItems {T : Type} (ids : List String)
    (worker : String → Except String T) : List T :=
  (ids.map worker).filterMap (fun r =>
    match r with
    | .ok item => some item
    | .error _ => none)

/-- The single aggregated error `fmt.Errorf("error fetching: %v", errs)`
built by `runConcurrentTasks` when some workers failed. -/
def aggregateFetchError (errs : List String) : String :=
  "error fetching: [" ++ String.intercalate " " errs ++ "]"

/-- `runConcurrentTasks` from internal/client/helpers.go: runs the worker
once per id (concurrently in Go; completion order is modelled as input
order), collects successful items and errors, and returns the items when no
worker failed and otherwise a single aggregated error. -/
def runConcurrentTasks {T : Type} (ids : List String)
    (worker : String → Except String T) : Except String (List T) :=
  let errs := collectedErrors ids worker
  let items := collectedItems ids worker
  if errs.length > 0 then .error (aggregateFetchError errs) else .ok items

/-- `maxConcurrent` from internal/client/helpers.go: the capacity of the
semaphore channel bounding the goroutine fan-out. -/
def maxConcurrent : Nat := 10

/-- Abstract state of the goroutine pool spawned by `runConcurrentTasks`:
how many goroutines are blocked on `sem <- struct{}{}`, how many hold a
semaphore slot and are running the worker, and how many have released the
slot and finished. -/
structure PoolState where
  waiting : Nat
  running : Nat
  finished : Nat
  deriving DecidableEq

/-- Interleaving semantics of the semaphore in `runConcurrentTasks`: a
waiting goroutine may acquire a slot only while fewer than `maxConcurrent`
slots are held (a send on a channel of capacity `maxConcurrent` blocks
otherwise), and a running goroutine may release its slot and finish. -/
inductive PoolStep : PoolState → PoolState → Prop
  | acquire (s : PoolState) : 0 < s.waiting → s.running < maxConcurrent →
      PoolStep s ⟨s.waiting - 1, s.running + 1, s.finished⟩
  | release (s : PoolState) : 0 < s.running →
      PoolStep s ⟨s.waiting, s.running - 1, s.finished + 1⟩

/-- States reachable by the pool spawned for an input of `n` ids: initially
all `n` goroutines are spawned and none holds a semaphore slot. -/
inductive PoolReachable (n : Nat) : PoolState → Prop
  | init : PoolReachable n ⟨n, 0, 0⟩
  | step (s t : PoolState) : PoolReachable n s → PoolStep s t → PoolReachable n t

/-- `ProviderConfig` from internal/client/client.go. -/
structure ProviderConfig where
  username : String
  password : String
  baseURL : String
  deriving DecidableEq

/-- The observable content of the `*http.Request` built by `DoRequest`:
method, URL, body, basic-auth credentials and optional Content-Type. -/
structure HTTPRequest where
  method : String
  url : String
  body : Option String
  basicAuthUser : String
  basicAuthPass : String
  contentType : Option String
  deriving DecidableEq

/-- The observable content of an `*http.Response`. -/
structure HTTPResponse where
  statusCode : Nat
  body : String
  deriving DecidableEq

/-- Model of the net/http layer under `DoRequest`: whether
`http.NewRequestWithContext` fails for the given method/URL/body, and what
`Client.Do` returns for a request. -/
structure HTTPEnv where
  newRequestErr : String → String → Option String → Option String
  roundTrip : HTTPRequest → Except String HTTPResponse

/-- The request `DoRequest` (internal/client/client.go) builds: the URL is
`BaseURL ++ path`, the configured credentials are set via `SetBasicAuth`,
and the Content-Type header is set exactly when `contentType` is
nonempty. -/
def builtRequest (cfg : ProviderConfig) (method path : String)
    (body : Option String) (contentType : String) : HTTPRequest :=
  ⟨method, cfg.baseURL ++ path, body, cfg.username, cfg.password,
    if contentType == "" then none else some contentType⟩

/-- `DoRequest` from internal/client/client.go: builds one request with
`http.NewRequestWithContext` (wrapping a construction failure), sets basic
auth and the optional Content-Type, and performs one `Client.Do` round trip
(wrapping its failure). -/
def DoRequest (env : HTTPEnv) (cfg : ProviderConfig) (method path : String)
    (body : Option String) (contentType : String) : Except String HTTPResponse :=
  match env.newRequestErr method (cfg.baseURL ++ path) body with
  | some e => .error ("error creating request: " ++ e)
  | none =>
    match env.roundTrip (builtRequest cfg method path body contentType) with
    | .error e => .error ("error making request: " ++ e)
    | .ok resp => .ok resp

/-- Ordering used by `FetchVSwitchesByIDs` when sorting its result
(`sort.Slice` with `vswitches[i].ID < vswitches[j].ID` yields a list
nondecreasing in the ID field). -/
def vswitchLE (a b : VSwitch) : Prop := a.id ≤ b.id

instance : DecidableRel vswitchLE := fun a b => Int.decLe a.id b.id

instance : IsTotal VSwitch vswitchLE := ⟨fun a b => Int.le_total a.id b.id⟩

instance : IsTrans VSwitch vswitchLE := ⟨fun _ _ _ h1 h2 => Int.le_trans h1 h2⟩

/-- The successfully fetched vSwitches collected by `FetchVSwitchesByIDs`
(internal/client/vswitch.go); the collection order is modelled as input
order, and the claims quantify over its permutations. -/
def vswitchSuccesses (fetch : String → Except String VSwitch)
    (ids : List String) : List VSwitch :=
  (ids.map fetch).filterMap (fun r =>
    match r with
    | .ok v => some v
    | .error _ => none)

/-- The fetch errors collected by `FetchVSwitchesByIDs`. -/
def vswitchFailures (fetch : String → Except String VSwitch)
    (ids : List String) : List String :=
  (ids.map fetch).filterMap (fun r =>
    match r with
    | .error e => some e
    | .ok _ => none)

/-- The error message `fmt.Errorf("errors occurred: %v (and %d more)",
firstErrors, len(errs)-len(firstErrors))` of `FetchVSwitchesByIDs`. -/
def vswitchErrMsg (shown : List String) (more : Nat) : String :=
  "errors occurred: [" ++ String.intercalate " " shown ++ "] (and " ++
    toString more ++ " more)"

/-- The sort at the end of `FetchVSwitchesByIDs`: `sort.Slice` by ascending
ID, modelled as an insertion sort under `vswitchLE`. -/
def sortVSwitches (l : List VSwitch) : List VSwitch :=
  l.insertionSort vswitchLE

/-- The tail of `FetchVSwitchesByIDs` after the waitgroup: given the
collected vSwitches and errors, either report the first (at most 5) errors
with the count of the remaining ones, or return the collected vSwitches
sorted by ascending ID. -/
def finishVSwitchFetch (collected : List VSwitch) (errs : List String) :
    Except String (List VSwitch) :=
  if errs.length > 0 then
    let firstErrors := if errs.length > 5 then errs.take 5 else errs
    .error (vswitchErrMsg firstErrors (errs.length - firstErrors.length))
  else
    .ok (sortVSwitches collected)

/-- `FetchVSwitchesByIDs` from internal/client/vswitch.go: fan-out fetch of
each id, then `finishVSwitchFetch` on the collected results. -/
def FetchVSwitchesByIDs (fetch : String → Except String VSwitch)
    (ids : List String) : Except String (List VSwitch) :=
  finishVSwitchFetch (vswitchSuccesses fetch ids) (vswitchFailures fetch ids)

/-- The free VLANs computed by `pickRandomFreeVLAN`
(internal/vswitch/resource.go): the VLANs in `[4000..4091]` (92 values) that
are no fetched vSwitch's VLAN, in ascending order. -/
def freeVLANs (vswitches : List VSwitch) : List Int :=
  ((List.range 92).map (fun (k : Nat) => 4000 + (k : Int))).filter
    (fun vlan => !(vswitches.any (fun sw => sw.vlan == vlan)))

/-- `pickRandomFreeVLAN` from internal/vswitch/resource.go: fetches all
vSwitches (`fetchAll` is that call's result), computes the free VLANs in
`[4000..4091]`, errors when none is free, and otherwise returns the free
VLAN at a uniformly random index.  The draw of `crypto/rand.Int` is modelled
by the `randIdx` parameter taken modulo the number of free VLANs; the
entropy-failure path of `rand.Int` is not modelled. -/
def pickRandomFreeVLAN (fetchAll : Except String (List VSwitch))
    (randIdx : Nat) : Except String Int :=
  match fetchAll with
  | .error e => .error ("fetch all vswitches error: " ++ e)
  | .ok vswitches =>
    let free := freeVLANs vswitches
    if h : free.length = 0 then
      .error "no free VLAN in [4000..4091], all are taken"
    else
      .ok (free.get ⟨randIdx % free.length, Nat.mod_lt _ (Nat.pos_of_ne_zero h)⟩)

/-! ### Helper lemmas -/

theorem mem_diffServers_fst (oldList newList : List Int) (id : Int) :
    id ∈ (diffServers oldList newList).1 ↔ id ∈ newList ∧ id ∉ oldList := by
  simp [diffServers, List.mem_filter, List.mem_dedup]

theorem mem_diffServers_snd (oldList newList : List Int) (id : Int) :
    id ∈ (diffServers oldList newList).2 ↔ id ∈ oldList ∧ id ∉ newList := by
  simp [diffServers, List.mem_filter, List.mem_dedup]

theorem nodup_diffServers_fst (oldList newList : List Int) :
    (diffServers oldList newList).1.Nodup :=
  (List.nodup_dedup newList).filter _

theorem nodup_diffServers_snd (oldList newList : List Int) :
    (diffServers oldList newList).2.Nodup :=
  (List.nodup_dedup oldList).filter _

theorem waitVSwitchLoop_fetches_le (fetch : Nat → Except String VSwitch)
    (id : String) : ∀ n i, (waitVSwitchLoop fetch id i n).fetches ≤ n := by
  intro n
  induction n with
  | zero => intro i; simp [waitVSwitchLoop]
  | succ n ih =>
    intro i
    rw [waitVSwitchLoop]
    cases hfi : fetch i with
    | error e => simp
    | ok vsw =>
      by_cases hr : isVSwitchReady vsw.servers
      · simp [hr]
      · have := ih (i + 1)
        simp [hr]
        omega

theorem waitVSwitchLoop_timeout (fetch : Nat → Except String VSwitch)
    (id : String) : ∀ n i, (∀ j, j < n → vswitchPoll fetch (i + j) = .notReady) →
    waitVSwitchLoop fetch id i n =
      ⟨.timedOut ("timeout waiting for vSwitch " ++ id ++ " to become ready"), n, n⟩ := by
  intro n
  induction n with
  | zero => intro i _; rfl
  | succ n ih =>
    intro i h
    have h0 := h 0 (Nat.succ_pos n)
    rw [Nat.add_zero] at h0
    rw [waitVSwitchLoop]
    cases hfi : fetch i with
    | error e => simp [vswitchPoll, hfi] at h0
    | ok vsw =>
      by_cases hr : isVSwitchReady vsw.servers
      · simp [vswitchPoll, hfi, hr] at h0
      · have hrec := ih (i + 1) (fun j hj => by
          have hh := h (j + 1) (by omega)
          have harith : i + (j + 1) = i + 1 + j := by omega
          rwa [harith] at hh)
        simp [hr, hrec]

theorem waitVSwitchLoop_ready (fetch : Nat → Except String VSwitch)
    (id : String) : ∀ n i k, k < n →
    (∀ j, j < k → vswitchPoll fetch (i + j) = .notReady) →
    vswitchPoll fetch (i + k) = .ready →
    waitVSwitchLoop fetch id i n = ⟨.ok, k + 1, k⟩ := by
  intro n
  induction n with
  | zero => intro i k hk; omega
  | succ n ih =>
    intro i k hk hwin hready
    rw [waitVSwitchLoop]
    cases k with
    | zero =>
      rw [Nat.add_zero] at hready
      cases hfi : fetch i with
      | error e => simp [vswitchPoll, hfi] at hready
      | ok vsw =>
        by_cases hr : isVSwitchReady vsw.servers
        · simp [hr]
        · simp [vswitchPoll, hfi, hr] at hready
    | succ m =>
      have h0 := hwin 0 (Nat.succ_pos m)
      rw [Nat.add_zero] at h0
      cases hfi : fetch i with
      | error e => simp [vswitchPoll, hfi] at h0
      | ok vsw =>
        by_cases hr : isVSwitchReady vsw.servers
        · simp [vswitchPoll, hfi, hr] at h0
        · have hrec := ih (i + 1) m (by omega)
            (fun j hj => by
              have hh := hwin (j + 1) (by omega)
              have harith : i + (j + 1) = i + 1 + j := by omega
              rwa [harith] at hh)
            (by
              have harith : i + (m + 1) = i + 1 + m := by omega
              rwa [harith] at hready)
          simp [hr, hrec]

theorem waitVSwitchLoop_failed (fetch : Nat → Except String VSwitch)
    (id : String) : ∀ n i k e, k < n →
    (∀ j, j < k → vswitchPoll fetch (i + j) = .notReady) →
    vswitchPoll fetch (i + k) = .failed e →
    waitVSwitchLoop fetch id i n =
      ⟨.fetchFailed ("error fetching VSwitch while waiting: " ++ e), k + 1, k⟩ := by
  intro n
  induction n with
  | zero => intro i k e hk; omega
  | succ n ih =>
    intro i k e hk hwin hfail
    rw [waitVSwitchLoop]
    cases k with
    | zero =>
      rw [Nat.add_zero] at hfail
      cases hfi : fetch i with
      | error e2 =>
        have : e2 = e := by simpa [vswitchPoll, hfi] using hfail
        subst this
        rfl
      | ok vsw =>
        by_cases hr : isVSwitchReady vsw.servers
        · simp [vswitchPoll, hfi, hr] at hfail
        · simp [vswitchPoll, hfi, hr] at hfail
    | succ m =>
      have h0 := hwin 0 (Nat.succ_pos m)
      rw [Nat.add_zero] at h0
      cases hfi : fetch i with
      | error e2 => simp [vswitchPoll, hfi] at h0
      | ok vsw =>
        by_cases hr : isVSwitchReady vsw.servers
        · simp [vswitchPoll, hfi, hr] at h0
        · have hrec := ih (i + 1) m e (by omega)
            (fun j hj => by
              have hh := hwin (j + 1) (by omega)
              have harith : i + (j + 1) = i + 1 + j := by omega
              rwa [harith] at hh)
            (by
              have harith : i + (m + 1) = i + 1 + m := by omega
              rwa [harith] at hfail)
          simp [hr, hrec]

theorem waitFirewallLoop_fetches_le (get : Nat → Except String Firewall)
    (ip : String) : ∀ n i, (waitFirewallLoop get ip i n).fetches ≤ n := by
  intro n
  induction n with
  | zero => intro i; simp [waitFirewallLoop]
  | succ n ih =>
    intro i
    rw [waitFirewallLoop]
    cases hfi : get i with
    | error e => simp
    | ok firewall =>
      by_cases hr : firewall.status == "active"
      · simp [hr]
      · have := ih (i + 1)
        simp [hr]
        omega

theorem waitFirewallLoop_timeout (get : Nat → Except String Firewall)
    (ip : String) : ∀ n i, (∀ j, j < n → firewallPoll get (i + j) = .notReady) →
    waitFirewallLoop get ip i n =
      ⟨.timedOut ("timeout waiting for firewall to become active on ip: " ++ ip), n, n⟩ := by
  intro n
  induction n with
  | zero => intro i _; rfl
  | succ n ih =>
    intro i h
    have h0 := h 0 (Nat.succ_pos n)
    rw [Nat.add_zero] at h0
    rw [waitFirewallLoop]
    cases hfi : get i with
    | error e => simp [firewallPoll, hfi] at h0
    | ok firewall =>
      by_cases hr : firewall.status == "active"
      · simp [firewallPoll, hfi, hr] at h0
      · have hrec := ih (i + 1) (fun j hj => by
          have hh := h (j + 1) (by omega)
          have harith : i + (j + 1) = i + 1 + j := by omega
          rwa [harith] at hh)
        simp [hr, hrec]

theorem waitFirewallLoop_failed (get : Nat → Except String Firewall)
    (ip : String) : ∀ n i k e, k < n →
    (∀ j, j < k → firewallPoll get (i + j) = .notReady) →
    firewallPoll get (i + k) = .failed e →
    waitFirewallLoop get ip i n =
      ⟨.fetchFailed ("error checking firewall status: " ++ e), k + 1, k⟩ := by
  intro n
  induction n with
  | zero => intro i k e hk; omega
  | succ n ih =>
    intro i k e hk hwin hfail
    rw [waitFirewallLoop]
    cases k with
    | zero =>
      rw [Nat.add_zero] at hfail
      cases hfi : get i with
      | error e2 =>
        have : e2 = e := by simpa [firewallPoll, hfi] using hfail
        subst this
        rfl
      | ok firewall =>
        by_cases hr : firewall.status == "active"
        · simp [firewallPoll, hfi, hr] at hfail
        · simp [firewallPoll, hfi, hr] at hfail
    | succ m =>
      have h0 := hwin 0 (Nat.succ_pos m)
      rw [Nat.add_zero] at h0
      cases hfi : get i with
      | error e2 => simp [firewallPoll, hfi] at h0
      | ok firewall =>
        by_cases hr : firewall.status == "active"
        · simp [firewallPoll, hfi, hr] at h0
        · have hrec := ih (i + 1) m e (by omega)
            (fun j hj => by
              have hh := hwin (j + 1) (by omega)
              have harith : i + (j + 1) = i + 1 + j := by omega
              rwa [harith] at hh)
            (by
              have harith : i + (m + 1) = i + 1 + m := by omega
              rwa [harith] at hfail)
          simp [hr, hrec]

theorem waitFirewallLoop_ok_iff (get : Nat → Except String Firewall)
    (ip : String) : ∀ n i, (waitFirewallLoop get ip i n).outcome = .ok ↔
    ∃ k, k < n ∧ (∀ j, j < k → firewallPoll get (i + j) = .notReady) ∧
      firewallPoll get (i + k) = .ready := by
  intro n
  induction n with
  | zero =>
    intro i
    simp [waitFirewallLoop]
  | succ n ih =>
    intro i
    rw [waitFirewallLoop]
    cases hfi : get i with
    | error e =>
      simp only []
      constructor
      · intro h; exact absurd h (by simp)
      · rintro ⟨k, hk, hwin, hready⟩
        cases k with
        | zero => simp [firewallPoll, hfi] at hready
        | succ m =>
          have h0 := hwin 0 (Nat.succ_pos m)
          rw [Nat.add_zero] at h0
          simp [firewallPoll, hfi] at h0
    | ok firewall =>
      by_cases hr : firewall.status == "active"
      · simp only [hr, if_true]
        constructor
        · intro _
          exact ⟨0, Nat.succ_pos n, fun j hj => by omega,
            by simp [firewallPoll, hfi, hr]⟩
        · intro _; trivial
      · simp only [hr, if_false]
        have hnot : firewallPoll get i = .notReady := by
          simp [firewallPoll, hfi, hr]
        constructor
        · intro h
          have h2 := (ih (i + 1)).1 (by simpa using h)
          obtain ⟨k, hk, hwin, hready⟩ := h2
          refine ⟨k + 1, by omega, ?_, ?_⟩
          · intro j hj
            cases j with
            | zero => simpa using hnot
            | succ m =>
              have hh := hwin m (by omega)
              have harith : i + 1 + m = i + (m + 1) := by omega
              rwa [harith] at hh
          · have harith : i + 1 + k = i + (k + 1) := by omega
            rwa [harith] at hready
        · rintro ⟨k, hk, hwin, hready⟩
          cases k with
          | zero =>
            rw [Nat.add_zero] at hready
            rw [hnot] at hready
            exact absurd hready (by simp)
          | succ m =>
            have h2 : (waitFirewallLoop get ip (i + 1) n).outcome = .ok := by
              refine (ih (i + 1)).2 ⟨m, by omega, ?_, ?_⟩
              · intro j hj
                have hh := hwin (j + 1) (by omega)
                have harith : i + (j + 1) = i + 1 + j := by omega
                rwa [harith] at hh
              · have harith : i + (m + 1) = i + 1 + m := by omega
                rwa [harith] at hready
            simpa using h2

/-! ### Claim theorems -/

/-- C1: for every pair of integer lists `oldList` and `newList`,
`diffServers oldList newList` returns `(toAdd, toRemove)` where `toAdd`
contains exactly the ids occurring in `newList` but not in `oldList`,
`toRemove` contains exactly the ids occurring in `oldList` but not in
`newList`, and each id appears at most once in its output list (duplicates
in the inputs are collapsed). -/
theorem diffServers_spec (oldList newList : List Int) :
    (∀ id, id ∈ (diffServers oldList newList).1 ↔ id ∈ newList ∧ id ∉ oldList) ∧
    (∀ id, id ∈ (diffServers oldList newList).2 ↔ id ∈ oldList ∧ id ∉ newList) ∧
    (diffServers oldList newList).1.Nodup ∧
    (diffServers oldList newList).2.Nodup :=
  ⟨fun id => mem_diffServers_fst oldList newList id,
   fun id => mem_diffServers_snd oldList newList id,
   nodup_diffServers_fst oldList newList,
   nodup_diffServers_snd oldList newList⟩

/-- C5: on an update, `manageServers` issues `RemoveVSwitchServers` only for
ids of the old list absent from the new list, `AddVSwitchServers` only for
ids of the new list absent from the old list (so ids present in both lists
appear in neither request), and when the two lists are equal as sets it
issues no attach or detach call at all. -/
theorem manageServers_spec (oldServers newServers : List Int) :
    (∀ l, VSwitchCall.removeServers l ∈ manageServers oldServers newServers →
      ∀ s ∈ l, s.serverNumber ∈ oldServers ∧ s.serverNumber ∉ newServers) ∧
    (∀ l, VSwitchCall.addServers l ∈ manageServers oldServers newServers →
      ∀ s ∈ l, s.serverNumber ∈ newServers ∧ s.serverNumber ∉ oldServers) ∧
    ((∀ id, id ∈ oldServers ↔ id ∈ newServers) →
      manageServers oldServers newServers = []) := by
  refine ⟨?_, ?_, ?_⟩
  · intro l hl s hs
    have hpayload : l = parseServerIDsToVSwitchServers (diffServers oldServers newServers).2 := by
      simp only [manageServers, List.mem_append] at hl
      rcases hl with h | h
      · by_cases hc : (diffServers oldServers newServers).2.length > 0
        · simp [hc] at h
          exact h
        · simp [hc] at h
      · by_cases hc : (diffServers oldServers newServers).1.length > 0
        · simp [hc] at h
        · simp [hc] at h
    subst hpayload
    simp only [parseServerIDsToVSwitchServers, List.mem_map] at hs
    obtain ⟨id, hid, rfl⟩ := hs
    exact (mem_diffServers_snd oldServers newServers id).1 hid
  · intro l hl s hs
    have hpayload : l = parseServerIDsToVSwitchServers (diffServers oldServers newServers).1 := by
      simp only [manageServers, List.mem_append] at hl
      rcases hl with h | h
      · by_cases hc : (diffServers oldServers newServers).2.length > 0
        · simp [hc] at h
        · simp [hc] at h
      · by_cases hc : (diffServers oldServers newServers).1.length > 0
        · simp [hc] at h
          exact h
        · simp [hc] at h
    subst hpayload
    simp only [parseServerIDsToVSwitchServers, List.mem_map] at hs
    obtain ⟨id, hid, rfl⟩ := hs
    exact (mem_diffServers_fst oldServers newServers id).1 hid
  · intro hset
    have hfst : (diffServers oldServers newServers).1 = [] := by
      rw [List.eq_nil_iff_forall_not_mem]
      intro id hid
      have h := (mem_diffServers_fst oldServers newServers id).1 hid
      exact h.2 ((hset id).2 h.1)
    have hsnd : (diffServers oldServers newServers).2 = [] := by
      rw [List.eq_nil_iff_forall_not_mem]
      intro id hid
      have h := (mem_diffServers_snd oldServers newServers id).1 hid
      exact h.2 ((hset id).1 h.1)
    simp [manageServers, hfst, hsnd]

/-- C5 witness: concrete instance where the two lists are equal as sets, so
no attach or detach call is issued. -/
theorem manageServers_spec_witness : manageServers [1, 2] [2, 1, 1] = [] :=
  (manageServers_spec [1, 2] [2, 1, 1]).2.2 (by intro id; simp; tauto)

/-- C2: for every `maxRetries`, `WaitForVSwitchReady` calls
`FetchVSwitchByID` at most `maxRetries` times; it returns success as soon as
a fetch reports a server list with no server in status `"processing"`
(k earlier polls, then k+1 fetches total), it returns the fetch error
immediately (without further polls) when a fetch fails, and it returns a
timeout error when all `maxRetries` polls still show a processing server. -/
theorem WaitForVSwitchReady_spec (fetch : Nat → Except String VSwitch)
    (id : String) (maxRetries : Nat) :
    (WaitForVSwitchReady fetch id maxRetries).fetches ≤ maxRetries ∧
    ((∀ j, j < maxRetries → vswitchPoll fetch j = .notReady) →
      WaitForVSwitchReady fetch id maxRetries =
        ⟨.timedOut ("timeout waiting for vSwitch " ++ id ++ " to become ready"),
          maxRetries, maxRetries⟩) ∧
    (∀ k, k < maxRetries → (∀ j, j < k → vswitchPoll fetch j = .notReady) →
      vswitchPoll fetch k = .ready →
      WaitForVSwitchReady fetch id maxRetries = ⟨.ok, k + 1, k⟩) ∧
    (∀ k e, k < maxRetries → (∀ j, j < k → vswitchPoll fetch j = .notReady) →
      vswitchPoll fetch k = .failed e →
      WaitForVSwitchReady fetch id maxRetries =
        ⟨.fetchFailed ("error fetching VSwitch while waiting: " ++ e), k + 1, k⟩) := by
  refine ⟨waitVSwitchLoop_fetches_le fetch id maxRetries 0, ?_, ?_, ?_⟩
  · intro h
    exact waitVSwitchLoop_timeout fetch id maxRetries 0
      (fun j hj => by simpa using h j hj)
  · intro k hk hwin hready
    exact waitVSwitchLoop_ready fetch id maxRetries 0 k hk
      (fun j hj => by simpa using hwin j hj) (by simpa using hready)
  · intro k e hk hwin hfail
    exact waitVSwitchLoop_failed fetch id maxRetries 0 k e hk
      (fun j hj => by simpa using hwin j hj) (by simpa using hfail)

/-- C2 witness: a vSwitch whose single server is processing on the first
poll and done on the second; the loop returns success after 2 fetches and 1
sleep. -/
theorem WaitForVSwitchReady_spec_witness :
    WaitForVSwitchReady
      (fun i => if i = 0 then
        Except.ok ⟨1, "sw", 4000, false, [⟨7, "", "", "processing"⟩], [], []⟩
      else
        Except.ok ⟨1, "sw", 4000, false, [⟨7, "", "", "ready"⟩], [], []⟩)
      "42" 20 = ⟨.ok, 2, 1⟩ :=
  (WaitForVSwitchReady_spec _ "42" 20).2.2.1 1 (by omega)
    (fun j hj => by interval_cases j; rfl) (by rfl)

/-- C9: `isVSwitchReady` is vacuously true on the empty server list, so for
every `maxRetries ≥ 1` a wait on a vSwitch with no attached servers returns
success after a single successful fetch, without sleeping. -/
theorem isVSwitchReady_empty_spec :
    isVSwitchReady [] = true ∧
    ∀ (fetch : Nat → Except String VSwitch) (id : String) (maxRetries : Nat)
      (vsw : VSwitch), 1 ≤ maxRetries → fetch 0 = .ok vsw → vsw.servers = [] →
      WaitForVSwitchReady fetch id maxRetries = ⟨.ok, 1, 0⟩ := by
  refine ⟨rfl, ?_⟩
  intro fetch id maxRetries vsw hmax hfetch hservers
  have hready : vswitchPoll fetch 0 = .ready := by
    simp [vswitchPoll, hfetch, hservers, isVSwitchReady]
  exact waitVSwitchLoop_ready fetch id maxRetries 0 0 (by omega)
    (fun j hj => by omega) (by simpa using hready)

/-- C9 witness: a vSwitch with no servers is ready on the first poll. -/
theorem isVSwitchReady_empty_spec_witness :
    WaitForVSwitchReady (fun _ => Except.ok ⟨1, "sw", 4000, false, [], [], []⟩)
      "7" 20 = ⟨.ok, 1, 0⟩ :=
  isVSwitchReady_empty_spec.2 _ "7" 20 ⟨1, "sw", 4000, false, [], [], []⟩
    (by omega) rfl rfl

/-- C3: `waitForFirewallActive` polls `GetFirewall` at most the retry limit
many times; it returns success if and only if some executed poll within the
limit observes firewall status `"active"` (all earlier polls having
succeeded without observing it); any `GetFirewall` error aborts the loop
immediately with that error; and when all polls within the limit succeed
without observing `"active"` it returns a timeout error.  The internal
client fixes the retry limit to `waitMaxRetries`. -/
theorem waitForFirewallActive_spec (get : Nat → Except String Firewall)
    (ip : String) (maxRetries : Nat) :
    (waitForFirewallActive get ip maxRetries).fetches ≤ maxRetries ∧
    ((waitForFirewallActive get ip maxRetries).outcome = .ok ↔
      ∃ k, k < maxRetries ∧ (∀ j, j < k → firewallPoll get j = .notReady) ∧
        firewallPoll get k = .ready) ∧
    (∀ k e, k < maxRetries → (∀ j, j < k → firewallPoll get j = .notReady) →
      firewallPoll get k = .failed e →
      waitForFirewallActive get ip maxRetries =
        ⟨.fetchFailed ("error checking firewall status: " ++ e), k + 1, k⟩) ∧
    ((∀ j, j < maxRetries → firewallPoll get j = .notReady) →
      waitForFirewallActive get ip maxRetries =
        ⟨.timedOut ("timeout waiting for firewall to become active on ip: " ++ ip),
          maxRetries, maxRetries⟩) := by
  refine ⟨waitFirewallLoop_fetches_le get ip maxRetries 0, ?_, ?_, ?_⟩
  · rw [waitForFirewallActive, waitFirewallLoop_ok_iff get ip maxRetries 0]
    constructor
    · rintro ⟨k, hk, hwin, hready⟩
      exact ⟨k, hk, fun j hj => by simpa using hwin j hj, by simpa using hready⟩
    · rintro ⟨k, hk, hwin, hready⟩
      exact ⟨k, hk, fun j hj => by simpa using hwin j hj, by simpa using hready⟩
  · intro k e hk hwin hfail
    exact waitFirewallLoop_failed get ip maxRetries 0 k e hk
      (fun j hj => by simpa using hwin j hj) (by simpa using hfail)
  · intro h
    exact waitFirewallLoop_timeout get ip maxRetries 0
      (fun j hj => by simpa using h j hj)

/-- C3 witness: a firewall that is in process for 3 polls and active on the
4th returns success within the internal retry limit of 60. -/
theorem waitForFirewallActive_spec_witness :
    (waitForFirewallActive
      (fun i => if i < 3 then Except.ok ⟨"1.2.3.4", false, "in process", ⟨[]⟩⟩
        else Except.ok ⟨"1.2.3.4", false, "active", ⟨[]⟩⟩)
      "1.2.3.4" waitMaxRetries).outcome = .ok :=
  (waitForFirewallActive_spec _ "1.2.3.4" waitMaxRetries).2.1.mpr
    ⟨3, by decide, fun j hj => by interval_cases j <;> rfl, by rfl⟩

/-- C4: `runConcurrentTasks` invokes the worker exactly once per id; when
every worker call succeeds it returns the collected results, exactly one per
id, with no error; and when at least one worker call fails it returns no
items and the single aggregated error built from the collected failures. -/
theorem runConcurrentTasks_spec {T : Type} (ids : List String)
    (worker : String → Except String T) (f : String → T) :
    ((∀ id ∈ ids, worker id = .ok (f id)) →
      runConcurrentTasks ids worker = .ok (ids.map f)) ∧
    (∀ id ∈ ids, ∀ e, worker id = .error e →
      runConcurrentTasks ids worker =
        .error (aggregateFetchError (collectedErrors ids worker))) := by
  constructor
  · intro h
    have herrs : collectedErrors ids worker = [] := by
      rw [collectedErrors, List.filterMap_eq_nil_iff]
      intro r hr
      obtain ⟨id, hid, rfl⟩ := List.mem_map.1 hr
      rw [h id hid]
    have hitems : collectedItems ids worker = ids.map f := by
      induction ids with
      | nil => rfl
      | cons a t ih =>
        have ha := h a (List.mem_cons_self a t)
        have ht := fun id hid => h id (List.mem_cons_of_mem a hid)
        have hstep : collectedItems (a :: t) worker = f a :: collectedItems t worker := by
          simp [collectedItems, ha]
        rw [hstep, ih ht ?_, List.map_cons]
        rw [collectedErrors, List.filterMap_eq_nil_iff]
        intro r hr
        obtain ⟨id, hid, rfl⟩ := List.mem_map.1 hr
        rw [ht id hid]
    rw [runConcurrentTasks]
    simp [herrs, hitems]
  · intro id hid e he
    have hmem : e ∈ collectedErrors ids worker := by
      rw [collectedErrors, List.mem_filterMap]
      exact ⟨worker id, List.mem_map_of_mem worker hid, by rw [he]⟩
    have hpos : (collectedErrors ids worker).length > 0 :=
      List.length_pos.2 (List.ne_nil_of_mem hmem)
    rw [runConcurrentTasks]
    simp [hpos]

/-- C4 witness: two ids with an always-succeeding worker yield exactly one
result per id. -/
theorem runConcurrentTasks_spec_witness :
    runConcurrentTasks ["a", "b"] (fun _ => Except.ok 0) = .ok [0, 0] :=
  (runConcurrentTasks_spec ["a", "b"] (fun _ => Except.ok 0) (fun _ => 0)).1
    (fun _ _ => rfl)

/-- C6: in every state the goroutine pool of the fan-out fetcher can reach
from its initial state, at most `maxConcurrent = 10` goroutines hold a
semaphore slot and run the worker simultaneously, and the `n` spawned
goroutines are conserved across the phases. -/
theorem PoolReachable_spec (n : Nat) (s : PoolState) (h : PoolReachable n s) :
    s.running ≤ maxConcurrent ∧ s.waiting + s.running + s.finished = n := by
  induction h with
  | init => exact ⟨Nat.zero_le _, by simp⟩
  | step s t _ hstep ih =>
    cases hstep with
    | acquire hw hr =>
      refine ⟨hr, ?_⟩
      have h2 := ih.2
      show s.waiting - 1 + (s.running + 1) + s.finished = n
      omega
    | release hrun =>
      have h1 := ih.1
      have h2 := ih.2
      refine ⟨?_, ?_⟩
      · show s.running - 1 ≤ maxConcurrent
        omega
      · show s.waiting + (s.running - 1) + (s.finished + 1) = n
        omega

/-- C6 witness: after one goroutine of three acquires a slot, one worker is
running, which is within the bound, and all three goroutines are accounted
for. -/
theorem PoolReachable_spec_witness :
    (1 : Nat) ≤ maxConcurrent ∧ 2 + 1 + 0 = 3 :=
  PoolReachable_spec 3 ⟨2, 1, 0⟩
    (PoolReachable.step ⟨3, 0, 0⟩ ⟨2, 1, 0⟩ PoolReachable.init
      (PoolStep.acquire ⟨3, 0, 0⟩ (by decide) (by decide)))

/-- C7: `DoRequest` builds one request whose URL is `BaseURL ++ path`, which
carries the configured username and password as basic-auth credentials and
whose Content-Type header is set if and only if `contentType` is nonempty;
it succeeds with the round-trip response exactly when both request
construction and the round trip succeed, and it returns an error (and no
response) exactly when request construction or the round trip fails. -/
theorem DoRequest_spec (env : HTTPEnv) (cfg : ProviderConfig)
    (method path : String) (body : Option String) (contentType : String) :
    (builtRequest cfg method path body contentType).url = cfg.baseURL ++ path ∧
    (builtRequest cfg method path body contentType).basicAuthUser = cfg.username ∧
    (builtRequest cfg method path body contentType).basicAuthPass = cfg.password ∧
    ((builtRequest cfg method path body contentType).contentType = some contentType ↔
      contentType ≠ "") ∧
    (∀ resp, DoRequest env cfg method path body contentType = .ok resp ↔
      env.newRequestErr method (cfg.baseURL ++ path) body = none ∧
      env.roundTrip (builtRequest cfg method path body contentType) = .ok resp) ∧
    ((∃ e, DoRequest env cfg method path body contentType = .error e) ↔
      (∃ e, env.newRequestErr method (cfg.baseURL ++ path) body = some e) ∨
      (∃ e, env.roundTrip (builtRequest cfg method path body contentType) = .error e)) := by
  refine ⟨rfl, rfl, rfl, ?_, ?_, ?_⟩
  · by_cases hct : contentType = ""
    · subst hct
      simp [builtRequest]
    · simp [builtRequest, hct]
  · intro resp
    cases hn : env.newRequestErr method (cfg.baseURL ++ path) body with
    | some e => simp [DoRequest, hn]
    | none =>
      cases hr : env.roundTrip (builtRequest cfg method path body contentType) with
      | error e => simp [DoRequest, hn, hr]
      | ok resp2 => simp [DoRequest, hn, hr]
  · cases hn : env.newRequestErr method (cfg.baseURL ++ path) body with
    | some e => simp [DoRequest, hn]
    | none =>
      cases hr : env.roundTrip (builtRequest cfg method path body contentType) with
      | error e => simp [DoRequest, hn, hr]
      | ok resp2 => simp [DoRequest, hn, hr]

/-- C7 witness: with an environment that always constructs requests and
answers 200, a GET on /vswitch succeeds with the round-trip response. -/
theorem DoRequest_spec_witness :
    DoRequest ⟨fun _ _ _ => none, fun _ => Except.ok ⟨200, "ok"⟩⟩
      ⟨"user", "pass", "https://robot-ws.your-server.de"⟩
      "GET" "/vswitch" none "" = .ok ⟨200, "ok"⟩ :=
  ((DoRequest_spec ⟨fun _ _ _ => none, fun _ => Except.ok ⟨200, "ok"⟩⟩
      ⟨"user", "pass", "https://robot-ws.your-server.de"⟩
      "GET" "/vswitch" none "").2.2.2.2.1 ⟨200, "ok"⟩).mpr ⟨rfl, rfl⟩

/-- C8: whenever `FetchVSwitchesByIDs` succeeds, the returned vSwitches are
the collected ones sorted in ascending order of the ID field, for every
completion order of the concurrent per-id fetches (quantified as a
permutation of the collected successes); and when fetches fail, the
returned error reports the first at most 5 collected errors together with
the count of the remaining ones. -/
theorem FetchVSwitchesByIDs_spec (fetch : String → Except String VSwitch)
    (ids : List String) :
    (∀ collected out, collected.Perm (vswitchSuccesses fetch ids) →
      finishVSwitchFetch collected (vswitchFailures fetch ids) = .ok out →
      out.Pairwise vswitchLE ∧ out.Perm (vswitchSuccesses fetch ids)) ∧
    (vswitchFailures fetch ids = [] →
      FetchVSwitchesByIDs fetch ids =
        .ok (sortVSwitches (vswitchSuccesses fetch ids))) ∧
    (vswitchFailures fetch ids ≠ [] →
      FetchVSwitchesByIDs fetch ids =
        .error (vswitchErrMsg ((vswitchFailures fetch ids).take 5)
          ((vswitchFailures fetch ids).length -
            ((vswitchFailures fetch ids).take 5).length)) ∧
      ((vswitchFailures fetch ids).take 5).length ≤ 5) := by
  refine ⟨?_, ?_, ?_⟩
  · intro collected out hperm hfin
    have hnil : (vswitchFailures fetch ids).length = 0 := by
      by_contra hne
      rw [finishVSwitchFetch, if_pos (by omega)] at hfin
      exact absurd hfin (by simp)
    rw [finishVSwitchFetch, if_neg (by omega)] at hfin
    have hout : out = sortVSwitches collected := by
      exact (Except.ok.inj hfin).symm
    subst hout
    constructor
    · exact List.sorted_insertionSort vswitchLE collected
    · exact (List.perm_insertionSort vswitchLE collected).trans hperm
  · intro hnil
    rw [FetchVSwitchesByIDs, finishVSwitchFetch, if_neg (by simp [hnil])]
  · intro hne
    have hpos : (vswitchFailures fetch ids).length > 0 :=
      List.length_pos.2 hne
    constructor
    · rw [FetchVSwitchesByIDs, finishVSwitchFetch, if_pos hpos]
      by_cases h5 : (vswitchFailures fetch ids).length > 5
      · simp only [h5, if_true]
      · have htake : (vswitchFailures fetch ids).take 5 = vswitchFailures fetch ids :=
          List.take_of_length_le (by omega)
        simp only [h5, if_false, htake]
    · calc ((vswitchFailures fetch ids).take 5).length
          ≤ 5 := by
            rw [List.length_take]
            exact Nat.min_le_left 5 _

/-- C8 witness: both fetches fail, so the error reports both collected
errors and zero remaining ones. -/
theorem FetchVSwitchesByIDs_spec_witness :
    FetchVSwitchesByIDs (fun id => Except.error id) ["a", "b"] =
      .error (vswitchErrMsg ["a", "b"] 0) :=
  ((FetchVSwitchesByIDs_spec (fun id => Except.error id) ["a", "b"]).2.2
    (by decide)).1

theorem mem_freeVLANs (vswitches : List VSwitch) (vlan : Int) :
    vlan ∈ freeVLANs vswitches ↔
      4000 ≤ vlan ∧ vlan ≤ 4091 ∧ ∀ sw ∈ vswitches, sw.vlan ≠ vlan := by
  rw [freeVLANs, List.mem_filter]
  constructor
  · rintro ⟨hmap, hany⟩
    rw [List.mem_map] at hmap
    obtain ⟨k, hk, hvk⟩ := hmap
    rw [List.mem_range] at hk
    rw [Bool.not_eq_true', List.any_eq_false] at hany
    refine ⟨by omega, by omega, ?_⟩
    intro sw hsw heq
    have hne := hany sw hsw
    rw [heq, beq_self_eq_true] at hne
    exact absurd hne (by simp)
  · rintro ⟨h1, h2, h3⟩
    refine ⟨?_, ?_⟩
    · rw [List.mem_map]
      refine ⟨(vlan - 4000).toNat, ?_, by omega⟩
      rw [List.mem_range]
      omega
    · rw [Bool.not_eq_true', List.any_eq_false]
      intro sw hsw
      simp [h3 sw hsw]

/-- C10: whenever `pickRandomFreeVLAN` succeeds, the returned VLAN lies in
the inclusive range 4000 to 4091 and is no fetched vSwitch's VLAN; under a
successful fetch it returns the no-free-VLAN error exactly when every VLAN
in that range is already used; and when the underlying fetch fails it
returns that fetch error. -/
theorem pickRandomFreeVLAN_spec (fetchAll : Except String (List VSwitch))
    (randIdx : Nat) :
    (∀ vswitches vlan, fetchAll = .ok vswitches →
      pickRandomFreeVLAN fetchAll randIdx = .ok vlan →
      4000 ≤ vlan ∧ vlan ≤ 4091 ∧ ∀ sw ∈ vswitches, sw.vlan ≠ vlan) ∧
    (∀ vswitches, fetchAll = .ok vswitches →
      (pickRandomFreeVLAN fetchAll randIdx =
          .error "no free VLAN in [4000..4091], all are taken" ↔
        ∀ vlan : Int, 4000 ≤ vlan → vlan ≤ 4091 →
          ∃ sw ∈ vswitches, sw.vlan = vlan)) ∧
    (∀ e, fetchAll = .error e →
      pickRandomFreeVLAN fetchAll randIdx =
        .error ("fetch all vswitches error: " ++ e)) := by
  refine ⟨?_, ?_, ?_⟩
  · intro vswitches vlan hfetch hpick
    subst hfetch
    rw [pickRandomFreeVLAN] at hpick
    by_cases h : (freeVLANs vswitches).length = 0
    · rw [dif_pos h] at hpick
      exact absurd hpick (by simp)
    · rw [dif_neg h] at hpick
      have hvlan := Except.ok.inj hpick
      have hmem : vlan ∈ freeVLANs vswitches := by
        rw [show vlan = (freeVLANs vswitches).get
            ⟨randIdx % (freeVLANs vswitches).length,
              Nat.mod_lt _ (Nat.pos_of_ne_zero h)⟩ from hvlan.symm]
        exact List.get_mem _ _ _
      exact (mem_freeVLANs vswitches vlan).1 hmem
  · intro vswitches hfetch
    subst hfetch
    rw [pickRandomFreeVLAN]
    by_cases h : (freeVLANs vswitches).length = 0
    · rw [dif_pos h]
      constructor
      · intro _ vlan h1 h2
        have hnotmem : vlan ∉ freeVLANs vswitches := by
          rw [List.length_eq_zero] at h
          simp [h]
        rw [mem_freeVLANs] at hnotmem
        push_neg at hnotmem
        obtain ⟨sw, hsw, heq⟩ := hnotmem h1 h2
        exact ⟨sw, hsw, heq⟩
      · intro _
        rfl
    · rw [dif_neg h]
      constructor
      · intro habs
        exact absurd habs (by simp)
      · intro hall
        exfalso
        have hpos : 0 < (freeVLANs vswitches).length := Nat.pos_of_ne_zero h
        have hmem : (freeVLANs vswitches).get ⟨0, hpos⟩ ∈ freeVLANs vswitches :=
          List.get_mem _ _ _
        rw [mem_freeVLANs] at hmem
        obtain ⟨h1, h2, h3⟩ := hmem
        obtain ⟨sw, hsw, heq⟩ := hall _ h1 h2
        exact h3 sw hsw heq
  · intro e hfetch
    subst hfetch
    rfl

/-- C10 witness: with no existing vSwitches, the picked VLAN (4000 at random
index 0) is in range and unused. -/
theorem pickRandomFreeVLAN_spec_witness :
    (4000 : Int) ≤ 4000 ∧ (4000 : Int) ≤ 4091 ∧
      ∀ sw ∈ ([] : List VSwitch), sw.vlan ≠ 4000 :=
  (pickRandomFreeVLAN_spec (.ok []) 0).1 [] 4000 rfl rfl

end HetznerRobot
